import Mathlib

/-!
Verification of the ESP32 JJY/BPC time-signal transmitter
(esp32_jjy40kHz_with_rtc and variants).

The 62-element signed-char buffer sg[] is modelled as a total function
from slot index to an integer value; the field encoders, parity
computation, leap-second handling, waveform tables, transmission loop
bounds, NTP anchor arithmetic and the resync state machine are
translated from the sketches.  char values live in Int since the
marker value M is -1.
-/

/-- The sg[] time-code buffer: slot index to stored (char) value. -/
abbrev Sg := Nat → Int

/-- A single store sg[i] = v. -/
def setSg (s : Sg) (i : Nat) (v : Int) : Sg :=
  fun j => if j = i then v else s j

/-- The marker constant: const char M = -1. -/
def M : Int := -1

/-- A file-scope char array in C++ is zero-initialised; sg[] starts all 0. -/
def sgInit : Sg := fun _ => 0

/-- dec2BCD helper, structurally recursive on a fuel argument so it is
kernel-evaluable.  The fuel starts at the input itself and is never
exhausted before the value reaches 0 (the value at least halves every
step), so this computes exactly the source loop
while (decimal > 0) \x7b bcd += (decimal % 10) * multiplier; multiplier *= 16; decimal /= 10; \x7d. -/
def dec2BCDGo : Nat → Nat → Nat
  | _, 0 => 0
  | 0, _ + 1 => 0
  | fuel + 1, d + 1 => 16 * dec2BCDGo fuel ((d + 1) / 10) + (d + 1) % 10

/-- dec2BCD(int decimal): decimal digits packed as 4-bit groups. -/
def dec2BCD (decimal : Nat) : Nat := dec2BCDGo decimal decimal

/-- set_year(int n): writes the 8 BCD bits of n into sg[48] (lsb) down
to sg[41] (msb). -/
def set_year (n : Nat) (s : Sg) : Sg :=
  let m := dec2BCD n
  let s := setSg s 48 (m % 2); let m := m >>> 1
  let s := setSg s 47 (m % 2); let m := m >>> 1
  let s := setSg s 46 (m % 2); let m := m >>> 1
  let s := setSg s 45 (m % 2); let m := m >>> 1
  let s := setSg s 44 (m % 2); let m := m >>> 1
  let s := setSg s 43 (m % 2); let m := m >>> 1
  let s := setSg s 42 (m % 2); let m := m >>> 1
  setSg s 41 (m % 2)

/-- set_day(int n): writes the 10 BCD bits of the day-of-year into
sg[33]..sg[30], sg[28]..sg[25], sg[23], sg[22] (lsb first). -/
def set_day (n : Nat) (s : Sg) : Sg :=
  let m := dec2BCD n
  let s := setSg s 33 (m % 2); let m := m >>> 1
  let s := setSg s 32 (m % 2); let m := m >>> 1
  let s := setSg s 31 (m % 2); let m := m >>> 1
  let s := setSg s 30 (m % 2); let m := m >>> 1
  let s := setSg s 28 (m % 2); let m := m >>> 1
  let s := setSg s 27 (m % 2); let m := m >>> 1
  let s := setSg s 26 (m % 2); let m := m >>> 1
  let s := setSg s 25 (m % 2); let m := m >>> 1
  let s := setSg s 23 (m % 2); let m := m >>> 1
  setSg s 22 (m % 2)

/-- set_wday(int m): 3 plain binary bits into sg[52] (lsb) .. sg[50]. -/
def set_wday (m : Nat) (s : Sg) : Sg :=
  let s := setSg s 52 (m % 2); let m := m >>> 1
  let s := setSg s 51 (m % 2); let m := m >>> 1
  setSg s 50 (m % 2)

/-- set_hour(int n): 6 BCD bits into sg[18]..sg[15], sg[13], sg[12],
then the PA1 parity (xor of the six hour bits) into sg[36]. -/
def set_hour (n : Nat) (s : Sg) : Sg :=
  let m := dec2BCD n
  let s := setSg s 18 (m % 2); let m := m >>> 1
  let s := setSg s 17 (m % 2); let m := m >>> 1
  let s := setSg s 16 (m % 2); let m := m >>> 1
  let s := setSg s 15 (m % 2); let m := m >>> 1
  let s := setSg s 13 (m % 2); let m := m >>> 1
  let s := setSg s 12 (m % 2)
  let PA1 := Int.xor (Int.xor (Int.xor (Int.xor (Int.xor (s 18) (s 17)) (s 16)) (s 15)) (s 13)) (s 12)
  setSg s 36 PA1

/-- set_min(int n): 7 BCD bits into sg[8]..sg[5], sg[3], sg[2], sg[1],
then the PA2 parity (xor of the seven minute bits) into sg[37]. -/
def set_min (n : Nat) (s : Sg) : Sg :=
  let m := dec2BCD n
  let s := setSg s 8 (m % 2); let m := m >>> 1
  let s := setSg s 7 (m % 2); let m := m >>> 1
  let s := setSg s 6 (m % 2); let m := m >>> 1
  let s := setSg s 5 (m % 2); let m := m >>> 1
  let s := setSg s 3 (m % 2); let m := m >>> 1
  let s := setSg s 2 (m % 2); let m := m >>> 1
  let s := setSg s 1 (m % 2)
  let PA2 := Int.xor (Int.xor (Int.xor (Int.xor (Int.xor (Int.xor (s 8) (s 7)) (s 6)) (s 5)) (s 3)) (s 2)) (s 1)
  setSg s 37 PA2

/-- set_fix(): the fixed marker slots get M, the reserved slots get 0,
including the leap-second flag slots sg[53] and sg[54]. -/
def set_fix (s : Sg) : Sg :=
  let s := setSg s 59 M
  let s := setSg s 49 M
  let s := setSg s 39 M
  let s := setSg s 29 M
  let s := setSg s 19 M
  let s := setSg s 9 M
  let s := setSg s 0 M
  let s := setSg s 58 0
  let s := setSg s 57 0
  let s := setSg s 56 0
  let s := setSg s 55 0
  let s := setSg s 35 0
  let s := setSg s 34 0
  let s := setSg s 24 0
  let s := setSg s 21 0
  let s := setSg s 20 0
  let s := setSg s 14 0
  let s := setSg s 11 0
  let s := setSg s 10 0
  let s := setSg s 4 0
  let s := setSg s 40 0
  let s := setSg s 38 0
  let s := setSg s 54 0
  setSg s 53 0

/-- The encoding sequence executed each loop iteration after the
leap-second adjustment: set_fix, set_min, set_hour, set_day, set_wday,
set_year. -/
def jjyEncode (mi h d w y : Nat) (s : Sg) : Sg :=
  set_year y (set_wday w (set_day d (set_hour h (set_min mi (set_fix s)))))

/-- Decode the minute from its slots as two BCD digits:
tens from sg[1..3], ones from sg[5..8]. -/
def decodeMin (s : Sg) : Int :=
  10 * (4 * s 1 + 2 * s 2 + s 3) + (8 * s 5 + 4 * s 6 + 2 * s 7 + s 8)

/-- Decode the hour: tens from sg[12..13], ones from sg[15..18]. -/
def decodeHour (s : Sg) : Int :=
  10 * (2 * s 12 + s 13) + (8 * s 15 + 4 * s 16 + 2 * s 17 + s 18)

/-- Decode the day-of-year: hundreds from sg[22..23], tens from
sg[25..28], ones from sg[30..33]. -/
def decodeDay (s : Sg) : Int :=
  100 * (2 * s 22 + s 23) + 10 * (8 * s 25 + 4 * s 26 + 2 * s 27 + s 28) +
    (8 * s 30 + 4 * s 31 + 2 * s 32 + s 33)

/-- Decode the year-in-century from sg[41..48] as two BCD digits. -/
def decodeYear (s : Sg) : Int :=
  10 * (8 * s 41 + 4 * s 42 + 2 * s 43 + s 44) +
    (8 * s 45 + 4 * s 46 + 2 * s 47 + s 48)

/-- Decode the weekday as a 3-bit binary number from sg[50..52]. -/
def decodeWday (s : Sg) : Int :=
  4 * s 50 + 2 * s 51 + s 52

/-- A broken-down calendar time, mirroring the fields of struct tm that
the sketches use (tm_year counts from 1900, tm_mon from 0). -/
structure Tm where
  tm_year : Nat
  tm_mon : Nat
  tm_mday : Nat
  tm_hour : Nat
  tm_min : Nat
  tm_sec : Nat
  tm_wday : Nat

/-- static const int daysInMonth[12]. -/
def daysInMonth : List Nat := [31, 28, 31, 30, 31, 30, 31, 31, 30, 31, 30, 31]

/-- The day-of-year computation done in the loop / printAndSendJJY:
tm_yday = tm_mday - 1 + sum of the month lengths before tm_mon, plus one
when the year is a Gregorian leap year and the month is past February. -/
def tmYday (t : Tm) : Nat :=
  let base := t.tm_mday - 1 + (daysInMonth.take t.tm_mon).sum
  let year := t.tm_year + 1900
  if (year % 4 = 0 ∧ year % 100 ≠ 0) ∨ year % 400 = 0 then
    if 1 < t.tm_mon then base + 1 else base
  else base

/-- One per-iteration encoding pass of the transmission loop: the
leap-second adjustment (writing sg[53], sg[54] and shifting se/sh),
followed by set_fix and the field encoders.  Returns the buffer, the
starting index se and the shift sh.  The year argument of set_year is
year - 2000 in C; for the years ≥ 2000 the claims quantify over, the
Nat subtraction here agrees with the C int subtraction (and for years
before 2000 both make dec2BCD return 0). -/
def encodePass (t : Tm) (s : Sg) : Sg × Nat × Nat :=
  let year := t.tm_year + 1900
  let adj :=
    if t.tm_sec = 60 then (setSg (setSg s 53 1) 54 0, 59, 1)
    else if t.tm_sec = 61 then (setSg (setSg s 53 1) 54 1, 58, 2)
    else (s, t.tm_sec, 0)
  (jjyEncode t.tm_min t.tm_hour (tmYday t + 1) t.tm_wday (year - 2000) adj.1,
   adj.2.1, adj.2.2)

/-- mark(): ledcWrite duty 127 then delay 200 ms, ledcWrite 0 then
delay 800 ms, as a list of (duty, milliseconds) steps. -/
def markWave : List (Int × Nat) := [(127, 200), (0, 800)]

/-- zero(): 800 ms at duty 127 then 200 ms off. -/
def zeroWave : List (Int × Nat) := [(127, 800), (0, 200)]

/-- one(): 500 ms at duty 127 then 500 ms off. -/
def oneWave : List (Int × Nat) := [(127, 500), (0, 500)]

/-- The per-slot safety check in the transmission loop: any value other
than -1, 0, 1 or 255 is overwritten with 0. -/
def coerceSym (v : Int) : Int :=
  if v ≠ -1 ∧ v ≠ 0 ∧ v ≠ 1 ∧ v ≠ 255 then 0 else v

/-- The switch over sg[i]: cases -1 and 255 emit mark, 0 emits zero,
1 emits one; any other value falls through the switch and emits
nothing, modelled as none. -/
def dispatchWave (v : Int) : Option (List (Int × Nat)) :=
  if v = -1 ∨ v = 255 then some markWave
  else if v = 0 then some zeroWave
  else if v = 1 then some oneWave
  else none

/-- The index sequence of the transmission loop
for (int i = se; i < 60 + sh && i < 62; ++i).  The fuel argument only
makes the recursion structural; it starts at 62 and the i < 62 test in
the loop condition always stops the recursion first, so no iteration is
ever cut off by the fuel. -/
def txIndicesGo (sh : Nat) : Nat → Nat → List Nat
  | 0, _ => []
  | fuel + 1, i => if i < 60 + sh ∧ i < 62 then i :: txIndicesGo sh fuel (i + 1) else []

/-- Indices visited by the transmission loop from se with leap shift sh. -/
def txIndices (sh se : Nat) : List Nat := txIndicesGo sh 62 se

/-- The full symbol sequence one loop iteration transmits for a
calendar time: encode, then for each visited index coerce the slot and
dispatch its waveform. -/
def transmission (t : Tm) (s0 : Sg) : List (Option (List (Int × Nat))) :=
  let r := encodePass t s0
  (txIndices r.2.2 r.2.1).map fun i => dispatchWave (coerceSym (r.1 i))

/-- The NTP-mode current-second projection in the loop:
ntpSyncedTime + (nowMicros - ntpSyncedMicros) / 1000000, where the
subtraction and division are on uint64 (hence the mod 2^64; with
anchor ≤ now < 2^64 the subtraction does not wrap). -/
def currentSecond (ntpSyncedTime : Int) (ntpSyncedMicros nowMicros : Nat) : Int :=
  ntpSyncedTime + (((nowMicros - ntpSyncedMicros) % 2 ^ 64) / 1000000 : Nat)

/-- The pair of globals forming the sync anchor. -/
structure SyncState where
  ntpSyncedMicros : Nat
  ntpSyncedTime : Int

/-- resyncNTP(): if WiFi is not connected, set ntpSyncedMicros = 0 and
return; if getLocalTime succeeds, capture a fresh anchor from time()
and esp_timer_get_time(); on fetch failure set ntpSyncedMicros = 0.
The RTC write and lastSyncMillis update on the success path do not
touch the anchor and are omitted. -/
def resyncNTP (wifiConnected : Bool) (fetched : Option Int) (nowMicros : Nat)
    (st : SyncState) : SyncState :=
  if wifiConnected = false then { st with ntpSyncedMicros := 0 }
  else
    match fetched with
    | some ntpEpoch => { ntpSyncedMicros := nowMicros, ntpSyncedTime := ntpEpoch }
    | none => { st with ntpSyncedMicros := 0 }

/-- The time-source selection at the top of loop(): when
ntpSyncedMicros > 0 the calendar time is localtime_r of the projected
current second (the RTC is never read); otherwise the RTC is read, an
invalid reading (none) skips the iteration, a valid one is converted
field by field.  localtime_r is an external library call, passed in as
a function on epoch seconds. -/
def loopTimeInfo (localt : Int → Tm) (st : SyncState) (nowMicros : Nat)
    (rtcReading : Option Tm) : Option Tm :=
  if 0 < st.ntpSyncedMicros then
    some (localt (currentSecond st.ntpSyncedTime st.ntpSyncedMicros nowMicros))
  else rtcReading

/-- quadize(value, pos, len): writes bits60[pos+len-1] = value & 3,
shifts value right by 2, and repeats down to bits60[pos]. -/
def quadize (value pos : Nat) : Nat → Sg → Sg
  | 0, s => s
  | l + 1, s => quadize (value >>> 2) pos l (setSg s (pos + l) (value % 4))

/-- The summation loop of qparity(pos, len):
sum += (bits60[i] & 1) + ((bits60[i] & 2) >> 1) for i in [pos, pos+len).
The slot values reaching it are 0..4, for which (x & 2) >> 1 equals
(x & 2) / 2. -/
def qparitySum (s : Sg) (pos : Nat) : Nat → Int
  | 0 => 0
  | l + 1 => Int.land (s pos) 1 + Int.land (s pos) 2 / 2 + qparitySum s (pos + 1) l

/-- qparity(pos, len) = the bit-sum over the range, modulo 2. -/
def qparity (pos len : Nat) (s : Sg) : Int := qparitySum s pos len % 2

/-- The field-encoding part of mb_bpc(): quaternary digits for hour,
minute, weekday, the P3 slot (AM/PM flag + parity over slots 3..9),
day, month, year, and the P4 parity over slots 11..18 into slot 19. -/
def mb_bpcCore (t : Tm) (s : Sg) : Sg :=
  let s := quadize (t.tm_hour % 12) 3 2 s
  let s := quadize t.tm_min 5 3 s
  let s := quadize t.tm_wday 8 2 s
  let s := setSg s 10 ((if 12 ≤ t.tm_hour then 2 else 0) + qparity 3 7 s)
  let s := quadize t.tm_mday 11 3 s
  let s := quadize (t.tm_mon + 1) 14 2 s
  let s := quadize (t.tm_year % 100) 16 3 s
  setSg s 19 (qparity 11 8 s)

/-- One iteration of the duplication loop in mb_bpc():
bits60[20+i] = bits60[i]; bits60[40+i] = bits60[i]. -/
def copyStep (i : Nat) (s : Sg) : Sg :=
  let s := setSg s (20 + i) (s i)
  setSg s (40 + i) (s i)

/-- The duplication loop for (int i = 2; i < 20; i++), unrolled. -/
def copyRepeat (s : Sg) : Sg :=
  copyStep 19 (copyStep 18 (copyStep 17 (copyStep 16 (copyStep 15 (copyStep 14
    (copyStep 13 (copyStep 12 (copyStep 11 (copyStep 10 (copyStep 9 (copyStep 8
      (copyStep 7 (copyStep 6 (copyStep 5 (copyStep 4 (copyStep 3 (copyStep 2 s)))))))))))))))))

/-- mb_bpc(): encode the core block, then duplicate it into the two
repeat regions. -/
def mb_bpc (t : Tm) (s : Sg) : Sg := copyRepeat (mb_bpcCore t s)

/-- int8_t sp_bpc[]: five 10-step sub-second amplitude patterns, one
row per symbol SP_0, SP_1, SP_2, SP_3, SP_M4. -/
def sp_bpc : List Int :=
  [0, 1, 1, 1, 1, 1, 1, 1, 1, 1,
   0, 0, 1, 1, 1, 1, 1, 1, 1, 1,
   0, 0, 0, 1, 1, 1, 1, 1, 1, 1,
   0, 0, 0, 0, 1, 1, 1, 1, 1, 1,
   0, 0, 0, 0, 0, 0, 0, 0, 0, 0]

/-- AMPDIV: number of 0.1 s amplitude steps per second. -/
def AMPDIV : Nat := 10

/-- The row of sp_bpc that ampchange() scans for a symbol: entries
sym * 10 + tssec for tssec in [0, AMPDIV). -/
def bpcPattern (sym : Nat) : List Int := (sp_bpc.drop (sym * AMPDIV)).take AMPDIV

/-! ## Claims -/

set_option maxRecDepth 8000 in
/-- Claim C1: for every valid field tuple (minute 0-59, hour 0-23,
day-of-year 1-366, year-in-century 0-99, weekday 0-6), after the field
encoders run on the sg buffer, decoding the written bit slots at the
field offsets (minute tens from sg[1..3] and ones from sg[5..8] as BCD
digits, hour from sg[12..13] and sg[15..18], day-of-year from
sg[22..23], sg[25..28], sg[30..33], year-in-century from sg[41..48],
weekday as 3-bit binary from sg[50..52]) reproduces the original
values exactly. -/
theorem jjy_field_roundtrip (mi h d w y : Nat) (s0 : Sg)
    (hmi : mi < 60) (hh : h < 24) (hd1 : 1 ≤ d) (hd2 : d ≤ 366)
    (hy : y < 100) (hw : w < 7) :
    decodeMin (jjyEncode mi h d w y s0) = mi ∧
    decodeHour (jjyEncode mi h d w y s0) = h ∧
    decodeDay (jjyEncode mi h d w y s0) = d ∧
    decodeYear (jjyEncode mi h d w y s0) = y ∧
    decodeWday (jjyEncode mi h d w y s0) = w := by
  refine ⟨?_, ?_, ?_, ?_, ?_⟩
  · simp [decodeMin, jjyEncode, set_year, set_wday, set_day, set_hour, set_min, set_fix, setSg]
    revert hmi; revert mi; decide
  · simp [decodeHour, jjyEncode, set_year, set_wday, set_day, set_hour, set_min, set_fix, setSg]
    revert hh; revert h; decide
  · simp [decodeDay, jjyEncode, set_year, set_wday, set_day, set_hour, set_min, set_fix, setSg]
    revert hd2; revert hd1; revert d; decide
  · simp [decodeYear, jjyEncode, set_year, set_wday, set_day, set_hour, set_min, set_fix, setSg]
    revert hy; revert y; decide
  · simp [decodeWday, jjyEncode, set_year, set_wday, set_day, set_hour, set_min, set_fix, setSg]
    revert hw; revert w; decide

/-- Witness for C1 at minute 34, hour 23, day 366, weekday 6, year 99. -/
theorem jjy_field_roundtrip_witness :
    (34 < 60 ∧ 23 < 24 ∧ 1 ≤ 366 ∧ 366 ≤ 366 ∧ 99 < 100 ∧ 6 < 7) ∧
    (decodeMin (jjyEncode 34 23 366 6 99 sgInit) = 34 ∧
     decodeHour (jjyEncode 34 23 366 6 99 sgInit) = 23 ∧
     decodeDay (jjyEncode 34 23 366 6 99 sgInit) = 366 ∧
     decodeYear (jjyEncode 34 23 366 6 99 sgInit) = 99 ∧
     decodeWday (jjyEncode 34 23 366 6 99 sgInit) = 6) :=
  ⟨by decide,
   jjy_field_roundtrip 34 23 366 6 99 sgInit (by decide) (by decide) (by decide)
     (by decide) (by decide) (by decide)⟩

set_option maxRecDepth 8000 in
/-- Claim C2: for every minute 0-59 and hour 0-23 (and any values of
the other fields), after the buffer is built, parity slot sg[36]
equals the mod-2 sum of the hour bits sg[12], sg[13], sg[15..18], and
parity slot sg[37] equals the mod-2 sum of the minute bits sg[1..3],
sg[5..8]. -/
theorem jjy_parity_invariant (mi h d w y : Nat) (s0 : Sg)
    (hmi : mi < 60) (hh : h < 24) :
    (jjyEncode mi h d w y s0) 36 =
      ((jjyEncode mi h d w y s0) 12 + (jjyEncode mi h d w y s0) 13 +
       (jjyEncode mi h d w y s0) 15 + (jjyEncode mi h d w y s0) 16 +
       (jjyEncode mi h d w y s0) 17 + (jjyEncode mi h d w y s0) 18) % 2 ∧
    (jjyEncode mi h d w y s0) 37 =
      ((jjyEncode mi h d w y s0) 1 + (jjyEncode mi h d w y s0) 2 +
       (jjyEncode mi h d w y s0) 3 + (jjyEncode mi h d w y s0) 5 +
       (jjyEncode mi h d w y s0) 6 + (jjyEncode mi h d w y s0) 7 +
       (jjyEncode mi h d w y s0) 8) % 2 := by
  constructor
  · simp [jjyEncode, set_year, set_wday, set_day, set_hour, set_min, set_fix, setSg]
    revert hh; revert h; decide
  · simp [jjyEncode, set_year, set_wday, set_day, set_hour, set_min, set_fix, setSg]
    revert hmi; revert mi; decide

/-- Witness for C2 at minute 51, hour 17. -/
theorem jjy_parity_invariant_witness :
    (51 < 60 ∧ 17 < 24) ∧
    ((jjyEncode 51 17 100 3 25 sgInit) 36 =
      ((jjyEncode 51 17 100 3 25 sgInit) 12 + (jjyEncode 51 17 100 3 25 sgInit) 13 +
       (jjyEncode 51 17 100 3 25 sgInit) 15 + (jjyEncode 51 17 100 3 25 sgInit) 16 +
       (jjyEncode 51 17 100 3 25 sgInit) 17 + (jjyEncode 51 17 100 3 25 sgInit) 18) % 2 ∧
     (jjyEncode 51 17 100 3 25 sgInit) 37 =
      ((jjyEncode 51 17 100 3 25 sgInit) 1 + (jjyEncode 51 17 100 3 25 sgInit) 2 +
       (jjyEncode 51 17 100 3 25 sgInit) 3 + (jjyEncode 51 17 100 3 25 sgInit) 5 +
       (jjyEncode 51 17 100 3 25 sgInit) 6 + (jjyEncode 51 17 100 3 25 sgInit) 7 +
       (jjyEncode 51 17 100 3 25 sgInit) 8) % 2) :=
  ⟨by decide, jjy_parity_invariant 51 17 100 3 25 sgInit (by decide) (by decide)⟩

/-- Claim C3, what the code actually does: the leap-second override
writes sg[53], sg[54] before set_fix runs, and set_fix resets both
slots to 0, so at the point transmission begins the flag pair is
(0, 0) even for second 60 or 61; the transmittable range, however, is
extended as claimed (se = 59, sh = 1 for second 60, giving indices up
to 60 inclusive; se = 58, sh = 2 for second 61, giving indices up to
61). Shown at 2025-06-30 12:34 with seconds 60, 61 and 59. -/
theorem leap_flags_cleared_by_set_fix :
    ((encodePass ⟨125, 5, 30, 12, 34, 60, 1⟩ sgInit).1 53 = 0 ∧
     (encodePass ⟨125, 5, 30, 12, 34, 60, 1⟩ sgInit).1 54 = 0 ∧
     (encodePass ⟨125, 5, 30, 12, 34, 60, 1⟩ sgInit).2.1 = 59 ∧
     (encodePass ⟨125, 5, 30, 12, 34, 60, 1⟩ sgInit).2.2 = 1) ∧
    ((encodePass ⟨125, 5, 30, 12, 34, 61, 1⟩ sgInit).1 53 = 0 ∧
     (encodePass ⟨125, 5, 30, 12, 34, 61, 1⟩ sgInit).1 54 = 0 ∧
     (encodePass ⟨125, 5, 30, 12, 34, 61, 1⟩ sgInit).2.1 = 58 ∧
     (encodePass ⟨125, 5, 30, 12, 34, 61, 1⟩ sgInit).2.2 = 2) ∧
    (encodePass ⟨125, 5, 30, 12, 34, 59, 1⟩ sgInit).1 53 = 0 ∧
    (encodePass ⟨125, 5, 30, 12, 34, 59, 1⟩ sgInit).1 54 = 0 := by decide

/-- Claim C4: with a fixed sync anchor, the computed current second is
exactly ntpSyncedTime + floor((nowMicros - ntpSyncedMicros)/1000000)
in integer arithmetic, and advancing the monotonic clock by exactly
k * 60000000 microseconds advances the computed second by exactly
60 * k, with zero cumulative error while the uint64 timer has not
wrapped. -/
theorem anchor_projection_drift_free (t : Int) (a n k : Nat)
    (h1 : a ≤ n) (h2 : n + 60000000 * k < 2 ^ 64) :
    currentSecond t a n = t + ((n - a) / 1000000 : Nat) ∧
    currentSecond t a (n + 60000000 * k) = currentSecond t a n + 60 * k := by
  have hn : n - a < 2 ^ 64 := by omega
  have hk : n + 60000000 * k - a < 2 ^ 64 := by omega
  constructor
  · unfold currentSecond
    rw [Nat.mod_eq_of_lt hn]
  · unfold currentSecond
    rw [Nat.mod_eq_of_lt hn, Nat.mod_eq_of_lt hk]
    have e1 : n + 60000000 * k - a = (n - a) + 1000000 * (60 * k) := by omega
    rw [e1, Nat.add_mul_div_left _ _ (show 0 < 1000000 by norm_num)]
    push_cast
    ring

/-- Witness for C4: anchor at second 1748000000 taken at 1000 µs,
read at 61000 µs, advanced k = 3 minutes. -/
theorem anchor_projection_drift_free_witness :
    (1000 ≤ 61000 ∧ 61000 + 60000000 * 3 < 2 ^ 64) ∧
    (currentSecond 1748000000 1000 61000 = 1748000000 + ((61000 - 1000) / 1000000 : Nat) ∧
     currentSecond 1748000000 1000 (61000 + 60000000 * 3) =
       currentSecond 1748000000 1000 61000 + 60 * 3) :=
  ⟨by decide, anchor_projection_drift_free 1748000000 1000 61000 3 (by decide) (by decide)⟩

/-- Claim C5: any slot value outside \x7b-1, 0, 1, 255\x7d is coerced to 0
by the safety check, the waveform then dispatched is Zero's (800 ms at
duty 127 followed by 200 ms off), and for every value the switch after
coercion hits one of its labelled cases - it is never entered with an
unchecked out-of-enum value. -/
theorem symbol_coercion_safe (v : Int) (h : v ≠ -1 ∧ v ≠ 0 ∧ v ≠ 1 ∧ v ≠ 255) :
    coerceSym v = 0 ∧ dispatchWave (coerceSym v) = some zeroWave ∧
    zeroWave = [(127, 800), (0, 200)] ∧
    ∀ w : Int, (dispatchWave (coerceSym w)).isSome = true := by
  have hc : coerceSym v = 0 := by rw [coerceSym, if_pos h]
  refine ⟨hc, by rw [hc]; decide, rfl, ?_⟩
  intro w
  by_cases hw : w ≠ -1 ∧ w ≠ 0 ∧ w ≠ 1 ∧ w ≠ 255
  · rw [coerceSym, if_pos hw]; decide
  · have hmem : w = -1 ∨ w = 0 ∨ w = 1 ∨ w = 255 := by
      by_contra hcon
      push_neg at hcon
      exact hw ⟨hcon.1, hcon.2.1, hcon.2.2.1, hcon.2.2.2⟩
    rcases hmem with rfl | rfl | rfl | rfl <;> decide

/-- Witness for C5 at the out-of-enum value 7. -/
theorem symbol_coercion_safe_witness :
    ((7 : Int) ≠ -1 ∧ (7 : Int) ≠ 0 ∧ (7 : Int) ≠ 1 ∧ (7 : Int) ≠ 255) ∧
    (coerceSym 7 = 0 ∧ dispatchWave (coerceSym 7) = some zeroWave ∧
     zeroWave = [(127, 800), (0, 200)] ∧
     ∀ w : Int, (dispatchWave (coerceSym w)).isSome = true) :=
  ⟨by decide, symbol_coercion_safe 7 (by decide)⟩

/-- Claim C6: the JJY waveform emitters have exactly the protocol
durations - mark() is 200 ms at duty 127 then 800 ms off, zero() is
800 ms then 200 ms off, one() is 500 ms then 500 ms off, each summing
to exactly 1000 ms - and the sp_bpc table holds five sub-second
patterns of exactly AMPDIV = 10 steps each, at 1000/AMPDIV = 100 ms
per step. -/
theorem waveform_durations :
    markWave.map Prod.fst = [127, 0] ∧ markWave.map Prod.snd = [200, 800] ∧
    zeroWave.map Prod.fst = [127, 0] ∧ zeroWave.map Prod.snd = [800, 200] ∧
    oneWave.map Prod.fst = [127, 0] ∧ oneWave.map Prod.snd = [500, 500] ∧
    (markWave.map Prod.snd).sum = 1000 ∧ (zeroWave.map Prod.snd).sum = 1000 ∧
    (oneWave.map Prod.snd).sum = 1000 ∧
    sp_bpc.length = 5 * AMPDIV ∧ (∀ sym : Fin 5, (bpcPattern sym).length = AMPDIV) ∧
    1000 / AMPDIV = 100 := by decide

/-- Claim C7 counterexample: with a prior valid anchor
(ntpSyncedMicros = 5 > 0), a resync attempt that fails because WiFi is
not connected does not keep the anchor - resyncNTP sets
ntpSyncedMicros to 0, leaving NTP-anchored mode. -/
theorem resync_failure_clears_anchor_cex :
    (resyncNTP false none 1000 ⟨5, 1700000000⟩).ntpSyncedMicros = 0 ∧
    ¬ 0 < (resyncNTP false none 1000 ⟨5, 1700000000⟩).ntpSyncedMicros := by decide

/-- Claim C7 as amended: whenever a periodic resync attempt fails -
WiFi not connected, or the time fetch failing - resyncNTP clears the
sync anchor by setting ntpSyncedMicros to 0, regardless of any prior
valid anchor, so the system falls back to the RTC time source instead
of continuing on the last-known anchor. -/
theorem resync_failure_clears_anchor (wifiConnected : Bool) (fetched : Option Int)
    (nowMicros : Nat) (st : SyncState)
    (h : wifiConnected = false ∨ fetched = none) :
    (resyncNTP wifiConnected fetched nowMicros st).ntpSyncedMicros = 0 := by
  rcases h with rfl | rfl
  · simp [resyncNTP]
  · cases wifiConnected <;> simp [resyncNTP]

/-- Witness for amended C7: fetch failure with WiFi up and a prior
anchor. -/
theorem resync_failure_clears_anchor_witness :
    (true = false ∨ (none : Option Int) = none) ∧
    (resyncNTP true none 2000 ⟨5, 1700000000⟩).ntpSyncedMicros = 0 :=
  ⟨Or.inr rfl, resync_failure_clears_anchor true none 2000 ⟨5, 1700000000⟩ (Or.inr rfl)⟩

/-- The duplication loop copies slot i of the pre-copy buffer to slots
20+i and 40+i for i in [2, 20), and leaves every slot below 22
unchanged. -/
theorem copyRepeat_spec (s : Sg) (i : Nat) (h2 : 2 ≤ i) (h20 : i < 20) :
    copyRepeat s (20 + i) = s i ∧ copyRepeat s (40 + i) = s i ∧
    copyRepeat s i = s i := by
  interval_cases i <;> refine ⟨?_, ?_, ?_⟩ <;> rfl

/-- Claim C8: for every calendar time (and any prior buffer contents),
after mb_bpc builds the BPC frame, the core time-code block at slots
[2, 20) - the encoded time digits and both parity slots - is
duplicated into the repeat regions: slot 20+i and slot 40+i both hold
the same value as slot i for every i in [2, 20). -/
theorem bpc_repeat_blocks (t : Tm) (s : Sg) (i : Nat)
    (h2 : 2 ≤ i) (h20 : i < 20) :
    mb_bpc t s (20 + i) = mb_bpc t s i ∧ mb_bpc t s (40 + i) = mb_bpc t s i := by
  obtain ⟨e1, e2, e3⟩ := copyRepeat_spec (mb_bpcCore t s) i h2 h20
  constructor
  · show copyRepeat (mb_bpcCore t s) (20 + i) = copyRepeat (mb_bpcCore t s) i
    rw [e1, e3]
  · show copyRepeat (mb_bpcCore t s) (40 + i) = copyRepeat (mb_bpcCore t s) i
    rw [e2, e3]

/-- Witness for C8 at 2025-06-30 12:34:56, slot 10 (the P3 parity
slot). -/
theorem bpc_repeat_blocks_witness :
    (2 ≤ 10 ∧ 10 < 20) ∧
    (mb_bpc ⟨125, 5, 30, 12, 34, 56, 1⟩ sgInit (20 + 10) =
       mb_bpc ⟨125, 5, 30, 12, 34, 56, 1⟩ sgInit 10 ∧
     mb_bpc ⟨125, 5, 30, 12, 34, 56, 1⟩ sgInit (40 + 10) =
       mb_bpc ⟨125, 5, 30, 12, 34, 56, 1⟩ sgInit 10) :=
  ⟨by decide, bpc_repeat_blocks ⟨125, 5, 30, 12, 34, 56, 1⟩ sgInit 10 (by decide) (by decide)⟩

/-- Claim C9: for every starting index se in [0, 61] and leap shift sh
in \x7b0, 1, 2\x7d, every index visited by the transmission loop
for (i = se; i < 60 + sh && i < 62; ++i) lies in [se, 61], hence
within the 62-element sg array. -/
theorem tx_loop_index_bounds (se sh i : Nat) (hse : se < 62) (hsh : sh < 3)
    (hi : i ∈ txIndices sh se) : se ≤ i ∧ i < 62 := by
  revert hi; revert i; revert hsh; revert sh; revert hse; revert se
  decide

/-- Witness for C9: the leap-extended index 61 reached from se = 58
with sh = 2. -/
theorem tx_loop_index_bounds_witness :
    (58 < 62 ∧ 2 < 3 ∧ 61 ∈ txIndices 2 58) ∧ (58 ≤ 61 ∧ 61 < 62) :=
  ⟨by decide, tx_loop_index_bounds 58 2 61 (by decide) (by decide) (by decide)⟩

/-- Claim C10: whenever ntpSyncedMicros > 0, the calendar time the loop
uses comes only from the anchor and the monotonic timer - the RTC
branch is never taken - so two runs differing only in the RTC reading
(valid, corrupted or invalid) select the same time and transmit the
same symbol sequence. -/
theorem ntp_mode_rtc_noninterference (localt : Int → Tm) (st : SyncState)
    (nowMicros : Nat) (rtc1 rtc2 : Option Tm) (h : 0 < st.ntpSyncedMicros) :
    loopTimeInfo localt st nowMicros rtc1 = loopTimeInfo localt st nowMicros rtc2 ∧
    (loopTimeInfo localt st nowMicros rtc1).map (fun t => transmission t sgInit) =
      (loopTimeInfo localt st nowMicros rtc2).map (fun t => transmission t sgInit) := by
  simp [loopTimeInfo, h]

/-- Witness for C10: anchor present, one run with an invalid RTC and
one with a (corrupted) RTC reading. -/
theorem ntp_mode_rtc_noninterference_witness :
    0 < (⟨1, 1748000000⟩ : SyncState).ntpSyncedMicros ∧
    (loopTimeInfo (fun _ => ⟨125, 0, 1, 0, 0, 0, 3⟩) ⟨1, 1748000000⟩ 5 none =
       loopTimeInfo (fun _ => ⟨125, 0, 1, 0, 0, 0, 3⟩) ⟨1, 1748000000⟩ 5
         (some ⟨0, 0, 0, 0, 0, 0, 0⟩) ∧
     (loopTimeInfo (fun _ => ⟨125, 0, 1, 0, 0, 0, 3⟩) ⟨1, 1748000000⟩ 5 none).map
         (fun t => transmission t sgInit) =
       (loopTimeInfo (fun _ => ⟨125, 0, 1, 0, 0, 0, 3⟩) ⟨1, 1748000000⟩ 5
           (some ⟨0, 0, 0, 0, 0, 0, 0⟩)).map (fun t => transmission t sgInit)) :=
  ⟨by decide,
   ntp_mode_rtc_noninterference (fun _ => ⟨125, 0, 1, 0, 0, 0, 3⟩) ⟨1, 1748000000⟩ 5
     none (some ⟨0, 0, 0, 0, 0, 0, 0⟩) (by decide)⟩
